import Mathlib

/-!
Shallow embedding of `src/orbital_launch.py` (kerbal_scripts): the flight-phase
state machine, the `Timer` one-shot countdown, the `Telemetry` recorder and the
control loop of `OrbitalLaunch.run`.

Modelling conventions:
* Python floats (times, altitudes, readings) are embedded as `ℚ` so every
  predicate is decidable and every definition computable.
* The kRPC live streams are embedded as a `Snapshot`: the values the streams
  deliver during one loop iteration.  `Snapshot.drag` stands for the Euclidean
  magnitude of the three-component drag reading (the Python computes it as
  `magnitude(self.drag_stream())`, a floating-point square root; no claim
  constrains its numeric value, so the embedding takes the magnitude itself as
  the reading).
* The CSV export performed by `Telemetry._write_atmospheric_record` is embedded
  as an append to a `sink` field: each export call appends the full row
  sequence it writes, so the number of export calls and their payloads are
  observable in the state.
* Fallible attribute accesses (`self.meco_timer_1.elapsed()` when the field is
  still `None`) are embedded with `Option`: `checkPhase` returns `none` exactly
  when the Python would raise `AttributeError` on a `None` timer.
-/

namespace KerbalScripts

/-- The `FlightPhase` enum of `orbital_launch.py`, all twelve members. -/
inductive FlightPhase where
  | LAUNCHPAD
  | INITIAL_CLIMB
  | INITIAL_TURN
  | GRAVITY_TURN
  | MECO
  | MAIN_STAGE_SEPARATION
  | SECOND_ENGINE_START
  | SUBORBITAL_ACCELERATION
  | SECO
  | IN_SPACE_TOWARDS_CIRCULARIZATION
  | CIRCULARIZATION
  | ORBIT
  deriving DecidableEq, Repr, Fintype

/-- The integer value each enum member carries in the source (`LAUNCHPAD = 1`, …). -/
def FlightPhase.value : FlightPhase → Nat
  | .LAUNCHPAD => 1
  | .INITIAL_CLIMB => 2
  | .INITIAL_TURN => 3
  | .GRAVITY_TURN => 4
  | .MECO => 5
  | .MAIN_STAGE_SEPARATION => 6
  | .SECOND_ENGINE_START => 7
  | .SUBORBITAL_ACCELERATION => 8
  | .SECO => 9
  | .IN_SPACE_TOWARDS_CIRCULARIZATION => 10
  | .CIRCULARIZATION => 11
  | .ORBIT => 12

/-- `Timer.__init__` stores the construction instant (`time.time()`) and the
requested duration. -/
structure Timer where
  start_time : ℚ
  duration : ℚ
  deriving DecidableEq, Repr

/-- `Timer.elapsed`: `if time.time() > self.start_time + self.duration: return
True; return False`.  The current wall-clock time is passed explicitly. -/
def Timer.elapsed (t : Timer) (now : ℚ) : Bool :=
  if now > t.start_time + t.duration then true else false

/-- One reading of every live stream used by `Telemetry.update`,
`OrbitalLaunch.run` and `OrbitalLaunch._check_phase` during a single loop
iteration, together with the wall-clock time `now` (`time.time()`). -/
structure Snapshot where
  /-- `sc.ut` — universal (mission) time. -/
  ut : ℚ
  /-- `flight.mean_altitude`. -/
  mean_altitude : ℚ
  /-- `vessel.orbit.apoapsis_altitude`. -/
  apoapsis_altitude : ℚ
  /-- Euclidean magnitude of the `flight.drag` vector (see module comment). -/
  drag : ℚ
  /-- `flight.true_air_speed`. -/
  true_air_speed : ℚ
  /-- `flight.mach`. -/
  mach : ℚ
  /-- `flight.atmosphere_density`. -/
  atmosphere_density : ℚ
  /-- `flight.dynamic_pressure`. -/
  dynamic_pressure : ℚ
  /-- `flight.static_air_temperature`. -/
  static_air_temperature : ℚ
  /-- `vessel.thrust`, read by `_check_phase`. -/
  thrust : ℚ
  /-- `time.time()` during this iteration (timer construction and queries). -/
  now : ℚ
  deriving DecidableEq, Repr

/-- One cell of the CSV record: the header row holds strings, sample rows hold
numbers. -/
abbrev Entry := String ⊕ ℚ

/-- One row of `Telemetry.record`. -/
abbrev Row := List Entry

/-- The header row `['ut', 'altitude', 'drag', 'TAS', 'mach', 'density', 'Q',
'temperature']` that `Telemetry.__init__` places first in `self.record`. -/
def headerRow : Row :=
  [.inl "ut", .inl "altitude", .inl "drag", .inl "TAS", .inl "mach",
   .inl "density", .inl "Q", .inl "temperature"]

/-- The mutable state of the `Telemetry` class (stream handles excluded; the
streams are passed as a `Snapshot` where the Python reads them).  `sink` models
the CSV files written by `_write_atmospheric_record`: one entry per export
call, holding the rows written. -/
structure Telemetry where
  do_record : Bool
  record : List Row
  altitude : ℚ
  apoapsis : ℚ
  start_time : ℚ
  elapsed : ℚ
  sink : List (List Row)
  deriving DecidableEq, Repr

/-- `Telemetry.__init__`: recording off, record holds the header row only, the
scalar fields start at `0`, nothing exported yet. -/
def Telemetry.init : Telemetry :=
  { do_record := false
    record := [headerRow]
    altitude := 0
    apoapsis := 0
    start_time := 0
    elapsed := 0
    sink := [] }

/-- `Telemetry.init_time`: `self.start_time = self.ut_stream()`. -/
def Telemetry.init_time (t : Telemetry) (s : Snapshot) : Telemetry :=
  { t with start_time := s.ut }

/-- The sample row `[self.elapsed, self.altitude, drag, tas, mach, density, q,
temperature]` appended by `Telemetry.update` when recording, given the epoch
`start` and the snapshot `s` (so the elapsed entry is `s.ut - start` and the
altitude entry is the freshly refreshed `s.mean_altitude`). -/
def sampleRow (start : ℚ) (s : Snapshot) : Row :=
  [.inr (s.ut - start), .inr s.mean_altitude, .inr s.drag,
   .inr s.true_air_speed, .inr s.mach, .inr s.atmosphere_density,
   .inr s.dynamic_pressure, .inr s.static_air_temperature]

/-- `Telemetry.update`: unconditionally refresh `altitude` and `apoapsis`; if
`do_record`, recompute `elapsed = ut - start_time` and append one sample row. -/
def Telemetry.update (t : Telemetry) (s : Snapshot) : Telemetry :=
  let t1 := { t with altitude := s.mean_altitude, apoapsis := s.apoapsis_altitude }
  if t1.do_record then
    let e := s.ut - t1.start_time
    { t1 with elapsed := e, record := t1.record ++ [sampleRow t1.start_time s] }
  else
    t1

/-- `Telemetry.stop_recording`: clear the flag, then `_write_atmospheric_record`
unconditionally exports the whole `record` (one more entry in `sink`). -/
def Telemetry.stop_recording (t : Telemetry) : Telemetry :=
  { t with do_record := false, sink := t.sink ++ [t.record] }

/-- The state of the `OrbitalLaunch` controller: its `Telemetry`, the current
phase, and the two optional timers (`None` until set). -/
structure OrbitalLaunch where
  telemetry : Telemetry
  phase : FlightPhase
  meco_timer_1 : Option Timer
  meco_timer_2 : Option Timer
  deriving DecidableEq, Repr

/-- `OrbitalLaunch.__init__`: fresh telemetry, phase `LAUNCHPAD`, both timer
fields `None` (the `_change_flight_law()` call issues actuator commands only). -/
def OrbitalLaunch.init : OrbitalLaunch :=
  { telemetry := Telemetry.init
    phase := .LAUNCHPAD
    meco_timer_1 := none
    meco_timer_2 := none }

/-- `OrbitalLaunch._check_phase(altitude, apoapsis)`.  The Python is a sequence
of `if self.phase == P and cond: …; return True` statements whose guards are
mutually exclusive on the phase, so it is embedded as a match on the phase.
`thrust` is `self.telemetry.vessel.thrust` and `now` is `time.time()` used by
`Timer` construction and `Timer.elapsed`.  Returns the updated controller and
the boolean the method returns, or `none` when the Python dereferences a `None`
timer (`AttributeError`). -/
def checkPhase (s : OrbitalLaunch) (altitude apoapsis thrust now : ℚ) :
    Option (OrbitalLaunch × Bool) :=
  match s.phase with
  | .LAUNCHPAD =>
      some ({ s with phase := .INITIAL_CLIMB }, true)
  | .INITIAL_CLIMB =>
      if altitude > 100 then some ({ s with phase := .INITIAL_TURN }, true)
      else some (s, false)
  | .INITIAL_TURN =>
      if altitude > 500 then some ({ s with phase := .GRAVITY_TURN }, true)
      else some (s, false)
  | .GRAVITY_TURN =>
      if thrust < 1 then
        some ({ s with phase := .MECO, meco_timer_1 := some ⟨now, 1/2⟩ }, true)
      else some (s, false)
  | .MECO =>
      match s.meco_timer_1 with
      | none => none
      | some t =>
          if t.elapsed now then
            some ({ s with phase := .MAIN_STAGE_SEPARATION,
                           meco_timer_2 := some ⟨now, 1/2⟩ }, true)
          else some (s, false)
  | .MAIN_STAGE_SEPARATION =>
      match s.meco_timer_2 with
      | none => none
      | some t =>
          if t.elapsed now then
            some ({ s with phase := .SUBORBITAL_ACCELERATION }, true)
          else some (s, false)
  | .SUBORBITAL_ACCELERATION =>
      if apoapsis > 75000 then some ({ s with phase := .SECO }, true)
      else some (s, false)
  | .SECO =>
      if altitude > 70000 then
        some ({ s with phase := .IN_SPACE_TOWARDS_CIRCULARIZATION }, true)
      else some (s, false)
  | _ => some (s, false)

/-- One iteration of the `while True` body of `OrbitalLaunch.run` (actuator
commands of `_change_flight_law` and the sleep excluded: they do not touch the
modelled state): update telemetry, read the fresh altitude and apoapsis, run
`_check_phase`, then stop recording when `do_record and altitude > 70000`. -/
def tick (s : OrbitalLaunch) (snap : Snapshot) : Option OrbitalLaunch :=
  let tel := s.telemetry.update snap
  let altitude := tel.altitude
  let apoapsis := tel.apoapsis
  match checkPhase { s with telemetry := tel } altitude apoapsis snap.thrust snap.now with
  | none => none
  | some (s1, _changed) =>
      if s1.telemetry.do_record ∧ altitude > 70000 then
        some { s1 with telemetry := s1.telemetry.stop_recording }
      else
        some s1

/-- `idle_time = 0.1 - (end_time - start_time); if idle_time > 0:
time.sleep(idle_time)` — the sleep performed by one loop iteration whose body
cost `c` seconds, or `none` when the iteration does not sleep. -/
def sleepDuration (c : ℚ) : Option ℚ :=
  if 1/10 - c > 0 then some (1/10 - c) else none

/-- The arguments of one `_check_phase` call (including the ambient thrust
reading and wall-clock time). -/
structure CheckInput where
  altitude : ℚ
  apoapsis : ℚ
  thrust : ℚ
  now : ℚ
  deriving DecidableEq, Repr

/-- Iterate `_check_phase` over a list of inputs (crash propagates). -/
def runChecks (s : OrbitalLaunch) : List CheckInput → Option OrbitalLaunch
  | [] => some s
  | i :: rest =>
      match checkPhase s i.altitude i.apoapsis i.thrust i.now with
      | none => none
      | some (s1, _) => runChecks s1 rest

/-- Iterate the loop body over a list of snapshots (crash propagates). -/
def runTicks (s : OrbitalLaunch) : List Snapshot → Option OrbitalLaunch
  | [] => some s
  | snap :: rest =>
      match tick s snap with
      | none => none
      | some s1 => runTicks s1 rest

/-- Iterate `Telemetry.update` over a list of snapshots. -/
def updateMany (t : Telemetry) (snaps : List Snapshot) : Telemetry :=
  snaps.foldl Telemetry.update t

/-- Position of each phase in the canonical nine-phase ascent order of the
transition table; the three members no transition targets sit after them. -/
def canonIdx : FlightPhase → Nat
  | .LAUNCHPAD => 0
  | .INITIAL_CLIMB => 1
  | .INITIAL_TURN => 2
  | .GRAVITY_TURN => 3
  | .MECO => 4
  | .MAIN_STAGE_SEPARATION => 5
  | .SUBORBITAL_ACCELERATION => 6
  | .SECO => 7
  | .IN_SPACE_TOWARDS_CIRCULARIZATION => 8
  | .SECOND_ENGINE_START => 9
  | .CIRCULARIZATION => 10
  | .ORBIT => 11

/-- Immediate successor in the canonical ascent order (phases outside the
canonical sequence, and the terminal phase, map to themselves). -/
def canonicalNext : FlightPhase → FlightPhase
  | .LAUNCHPAD => .INITIAL_CLIMB
  | .INITIAL_CLIMB => .INITIAL_TURN
  | .INITIAL_TURN => .GRAVITY_TURN
  | .GRAVITY_TURN => .MECO
  | .MECO => .MAIN_STAGE_SEPARATION
  | .MAIN_STAGE_SEPARATION => .SUBORBITAL_ACCELERATION
  | .SUBORBITAL_ACCELERATION => .SECO
  | .SECO => .IN_SPACE_TOWARDS_CIRCULARIZATION
  | p => p

/-- Controller states reachable from `OrbitalLaunch.init` by `_check_phase`
calls with arbitrary inputs. -/
inductive Reachable : OrbitalLaunch → Prop where
  | init : Reachable OrbitalLaunch.init
  | step {s s1 : OrbitalLaunch} {altitude apoapsis thrust now : ℚ} {b : Bool} :
      Reachable s → checkPhase s altitude apoapsis thrust now = some (s1, b) →
      Reachable s1

/-- The nine phases of the canonical ascent sequence, in transition-table
order. -/
def canonicalPhases : List FlightPhase :=
  [.LAUNCHPAD, .INITIAL_CLIMB, .INITIAL_TURN, .GRAVITY_TURN, .MECO,
   .MAIN_STAGE_SEPARATION, .SUBORBITAL_ACCELERATION, .SECO,
   .IN_SPACE_TOWARDS_CIRCULARIZATION]

/-- Timer-presence invariant: from `MECO` on, the first timer has been set;
from `MAIN_STAGE_SEPARATION` on, the second one as well. -/
def timersPresent (s : OrbitalLaunch) : Prop :=
  (s.phase = .MECO ∨ s.phase = .MAIN_STAGE_SEPARATION ∨
      s.phase = .SUBORBITAL_ACCELERATION ∨ s.phase = .SECO ∨
      s.phase = .IN_SPACE_TOWARDS_CIRCULARIZATION →
    s.meco_timer_1.isSome = true) ∧
  (s.phase = .MAIN_STAGE_SEPARATION ∨ s.phase = .SUBORBITAL_ACCELERATION ∨
      s.phase = .SECO ∨ s.phase = .IN_SPACE_TOWARDS_CIRCULARIZATION →
    s.meco_timer_2.isSome = true)

/-- The elapsed-time cell of a row, when the row starts with a number (the
header row starts with the string `ut` and has none). -/
def rowElapsed : Row → Option ℚ
  | .inr q :: _ => some q
  | _ => none

/-- The elapsed-time column of a record: the first cell of every numeric row,
in row order. -/
def elapsedColumn (rows : List Row) : List ℚ :=
  rows.filterMap rowElapsed

/-! ## Helper lemmas -/

/-- `_check_phase` never touches the telemetry object. -/
theorem checkPhase_telemetry {s s1 : OrbitalLaunch} {altitude apoapsis thrust now : ℚ}
    {b : Bool} (h : checkPhase s altitude apoapsis thrust now = some (s1, b)) :
    s1.telemetry = s.telemetry := by
  obtain ⟨tel, ph, t1, t2⟩ := s
  cases ph <;> cases t1 <;> cases t2 <;>
    simp only [checkPhase, Option.some.injEq, Prod.mk.injEq] at h <;>
    (try split_ifs at h) <;>
    (first
      | exact Option.noConfusion h
      | (obtain ⟨rfl, rfl⟩ := h; rfl))

/-- One `_check_phase` call leaves the phase unchanged or moves it to its
immediate canonical successor. -/
theorem checkPhase_phase_step {s s1 : OrbitalLaunch} {altitude apoapsis thrust now : ℚ}
    {b : Bool} (h : checkPhase s altitude apoapsis thrust now = some (s1, b)) :
    s1.phase = s.phase ∨ s1.phase = canonicalNext s.phase := by
  obtain ⟨tel, ph, t1, t2⟩ := s
  cases ph <;> cases t1 <;> cases t2 <;>
    simp only [checkPhase, Option.some.injEq, Prod.mk.injEq] at h <;>
    (try split_ifs at h) <;>
    (first
      | exact Option.noConfusion h
      | (obtain ⟨rfl, rfl⟩ := h; simp [canonicalNext]))

/-- The canonical successor's index is the index or the index plus one. -/
theorem canonIdx_next (p : FlightPhase) :
    canonIdx p ≤ canonIdx (canonicalNext p) ∧
      canonIdx (canonicalNext p) ≤ canonIdx p + 1 := by
  cases p <;> simp [canonIdx, canonicalNext]

/-- The canonical successor of a canonical phase is canonical. -/
theorem canonicalNext_mem {p : FlightPhase} (h : p ∈ canonicalPhases) :
    canonicalNext p ∈ canonicalPhases := by
  fin_cases h <;> simp [canonicalNext, canonicalPhases]

/-- One `_check_phase` call preserves the timer-presence invariant. -/
theorem timersPresent_step {s s1 : OrbitalLaunch} {altitude apoapsis thrust now : ℚ}
    {b : Bool} (hs : timersPresent s)
    (h : checkPhase s altitude apoapsis thrust now = some (s1, b)) :
    timersPresent s1 := by
  obtain ⟨tel, ph, t1, t2⟩ := s
  obtain ⟨hs1, hs2⟩ := hs
  cases ph <;> cases t1 <;> cases t2 <;>
    simp only [checkPhase, Option.some.injEq, Prod.mk.injEq] at h <;>
    (try split_ifs at h) <;>
    (first
      | exact Option.noConfusion h
      | (obtain ⟨rfl, rfl⟩ := h; simp_all [timersPresent]))

/-- Under the timer-presence invariant, `_check_phase` never dereferences an
absent timer: it always returns a value. -/
theorem checkPhase_total {s : OrbitalLaunch} (hs : timersPresent s)
    (altitude apoapsis thrust now : ℚ) :
    (checkPhase s altitude apoapsis thrust now).isSome = true := by
  obtain ⟨tel, ph, t1, t2⟩ := s
  obtain ⟨hs1, hs2⟩ := hs
  cases ph <;> cases t1 <;> cases t2 <;>
    simp_all [checkPhase] <;> (try split_ifs) <;> simp

/-- Every reachable controller state has a canonical phase and satisfies the
timer-presence invariant. -/
theorem reachable_inv {s : OrbitalLaunch} (h : Reachable s) :
    s.phase ∈ canonicalPhases ∧ timersPresent s := by
  induction h with
  | init =>
      constructor
      · simp [OrbitalLaunch.init, canonicalPhases]
      · constructor <;> intro hc <;>
          simp [OrbitalLaunch.init] at hc
  | step _ hstep ih =>
      refine ⟨?_, timersPresent_step ih.2 hstep⟩
      rcases checkPhase_phase_step hstep with he | he
      · rw [he]; exact ih.1
      · rw [he]; exact canonicalNext_mem ih.1

/-- Over a sequence of `_check_phase` calls the canonical phase index never
decreases. -/
theorem runChecks_canonIdx {s : OrbitalLaunch} {inputs : List CheckInput}
    {s1 : OrbitalLaunch} (h : runChecks s inputs = some s1) :
    canonIdx s.phase ≤ canonIdx s1.phase := by
  induction inputs generalizing s with
  | nil => simp [runChecks] at h; rw [h]
  | cons i rest ih =>
      rw [runChecks] at h
      cases hc : checkPhase s i.altitude i.apoapsis i.thrust i.now with
      | none => rw [hc] at h; exact absurd h (by simp)
      | some p =>
          rw [hc] at h
          refine le_trans ?_ (ih h)
          rcases checkPhase_phase_step hc with he | he <;> rw [he]
          exact (canonIdx_next _).1

/-- Field bookkeeping of one `Telemetry.update` call. -/
theorem update_fields (t : Telemetry) (s : Snapshot) :
    (t.update s).do_record = t.do_record ∧
    (t.update s).sink = t.sink ∧
    (t.update s).start_time = t.start_time ∧
    (t.update s).altitude = s.mean_altitude ∧
    (t.update s).record =
      (if t.do_record then t.record ++ [sampleRow t.start_time s] else t.record) := by
  cases h : t.do_record <;> simp [Telemetry.update, h]

/-- In the terminal phase, `_check_phase` falls through every condition and
returns `False` with the state untouched. -/
theorem checkPhase_terminal {s : OrbitalLaunch}
    (h : s.phase = .IN_SPACE_TOWARDS_CIRCULARIZATION)
    (altitude apoapsis thrust now : ℚ) :
    checkPhase s altitude apoapsis thrust now = some (s, false) := by
  simp [checkPhase, h]

/-- Each of the nine canonical phases is reachable from the initial state by a
suitable sequence of `_check_phase` calls. -/
theorem canonical_reachable :
    ∀ p ∈ canonicalPhases, ∃ s : OrbitalLaunch, Reachable s ∧ s.phase = p := by
  have h0 : Reachable OrbitalLaunch.init := Reachable.init
  have h1 : Reachable { OrbitalLaunch.init with phase := .INITIAL_CLIMB } :=
    h0.step (show checkPhase OrbitalLaunch.init 0 0 10 0 =
        some ({ OrbitalLaunch.init with phase := .INITIAL_CLIMB }, true) by
      norm_num [checkPhase, OrbitalLaunch.init])
  have h2 : Reachable { OrbitalLaunch.init with phase := .INITIAL_TURN } :=
    h1.step (show checkPhase { OrbitalLaunch.init with phase := .INITIAL_CLIMB } 600 0 10 0 =
        some ({ OrbitalLaunch.init with phase := .INITIAL_TURN }, true) by
      norm_num [checkPhase, OrbitalLaunch.init])
  have h3 : Reachable { OrbitalLaunch.init with phase := .GRAVITY_TURN } :=
    h2.step (show checkPhase { OrbitalLaunch.init with phase := .INITIAL_TURN } 600 0 10 0 =
        some ({ OrbitalLaunch.init with phase := .GRAVITY_TURN }, true) by
      norm_num [checkPhase, OrbitalLaunch.init])
  have h4 : Reachable { OrbitalLaunch.init with phase := .MECO, meco_timer_1 := some ⟨0, 1/2⟩ } :=
    h3.step (show checkPhase { OrbitalLaunch.init with phase := .GRAVITY_TURN } 600 0 0 0 =
        some ({ OrbitalLaunch.init with phase := .MECO, meco_timer_1 := some ⟨0, 1/2⟩ }, true) by
      norm_num [checkPhase, OrbitalLaunch.init])
  have h5 : Reachable { OrbitalLaunch.init with phase := .MAIN_STAGE_SEPARATION, meco_timer_1 := some ⟨0, 1/2⟩, meco_timer_2 := some ⟨1, 1/2⟩ } :=
    h4.step (show checkPhase { OrbitalLaunch.init with phase := .MECO, meco_timer_1 := some ⟨0, 1/2⟩ } 600 0 0 1 =
        some ({ OrbitalLaunch.init with phase := .MAIN_STAGE_SEPARATION, meco_timer_1 := some ⟨0, 1/2⟩, meco_timer_2 := some ⟨1, 1/2⟩ }, true) by
      norm_num [checkPhase, OrbitalLaunch.init, Timer.elapsed])
  have h6 : Reachable { OrbitalLaunch.init with phase := .SUBORBITAL_ACCELERATION, meco_timer_1 := some ⟨0, 1/2⟩, meco_timer_2 := some ⟨1, 1/2⟩ } :=
    h5.step (show checkPhase { OrbitalLaunch.init with phase := .MAIN_STAGE_SEPARATION, meco_timer_1 := some ⟨0, 1/2⟩, meco_timer_2 := some ⟨1, 1/2⟩ } 600 0 0 2 =
        some ({ OrbitalLaunch.init with phase := .SUBORBITAL_ACCELERATION, meco_timer_1 := some ⟨0, 1/2⟩, meco_timer_2 := some ⟨1, 1/2⟩ }, true) by
      norm_num [checkPhase, OrbitalLaunch.init, Timer.elapsed])
  have h7 : Reachable { OrbitalLaunch.init with phase := .SECO, meco_timer_1 := some ⟨0, 1/2⟩, meco_timer_2 := some ⟨1, 1/2⟩ } :=
    h6.step (show checkPhase { OrbitalLaunch.init with phase := .SUBORBITAL_ACCELERATION, meco_timer_1 := some ⟨0, 1/2⟩, meco_timer_2 := some ⟨1, 1/2⟩ } 600 80000 0 3 =
        some ({ OrbitalLaunch.init with phase := .SECO, meco_timer_1 := some ⟨0, 1/2⟩, meco_timer_2 := some ⟨1, 1/2⟩ }, true) by
      norm_num [checkPhase, OrbitalLaunch.init])
  have h8 : Reachable { OrbitalLaunch.init with phase := .IN_SPACE_TOWARDS_CIRCULARIZATION, meco_timer_1 := some ⟨0, 1/2⟩, meco_timer_2 := some ⟨1, 1/2⟩ } :=
    h7.step (show checkPhase { OrbitalLaunch.init with phase := .SECO, meco_timer_1 := some ⟨0, 1/2⟩, meco_timer_2 := some ⟨1, 1/2⟩ } 70001 80000 0 4 =
        some ({ OrbitalLaunch.init with phase := .IN_SPACE_TOWARDS_CIRCULARIZATION, meco_timer_1 := some ⟨0, 1/2⟩, meco_timer_2 := some ⟨1, 1/2⟩ }, true) by
      norm_num [checkPhase, OrbitalLaunch.init])
  intro p hp
  simp only [canonicalPhases, List.mem_cons, List.mem_singleton] at hp
  rcases hp with rfl | rfl | rfl | rfl | rfl | rfl | rfl | rfl | rfl | hp
  · exact ⟨_, h0, rfl⟩
  · exact ⟨_, h1, rfl⟩
  · exact ⟨_, h2, rfl⟩
  · exact ⟨_, h3, rfl⟩
  · exact ⟨_, h4, rfl⟩
  · exact ⟨_, h5, rfl⟩
  · exact ⟨_, h6, rfl⟩
  · exact ⟨_, h7, rfl⟩
  · exact ⟨_, h8, rfl⟩
  · exact absurd hp (List.not_mem_nil p)

/-- A loop tick on which recording is active and the fresh altitude exceeds
70000 clears the flag and performs exactly one export, of the post-update
buffer, whatever the phase. -/
theorem tick_stop {s : OrbitalLaunch} {snap : Snapshot} {s1 : OrbitalLaunch}
    (h : tick s snap = some s1) (hrec : s.telemetry.do_record = true)
    (halt : snap.mean_altitude > 70000) :
    s1.telemetry.do_record = false ∧
    s1.telemetry.sink = s.telemetry.sink ++ [(s.telemetry.update snap).record] := by
  simp only [tick] at h
  split at h
  next => exact Option.noConfusion h
  next sA b heq =>
      have hAtel : sA.telemetry = s.telemetry.update snap := checkPhase_telemetry heq
      have hcond : sA.telemetry.do_record = true ∧
          (s.telemetry.update snap).altitude > 70000 := by
        refine ⟨?_, ?_⟩
        · rw [hAtel, (update_fields s.telemetry snap).1]; exact hrec
        · rw [(update_fields s.telemetry snap).2.2.2.1]; exact halt
      rw [if_pos hcond] at h
      obtain rfl := Option.some.inj h
      refine ⟨rfl, ?_⟩
      show (sA.telemetry.stop_recording).sink = _
      rw [Telemetry.stop_recording, hAtel]
      rw [(update_fields s.telemetry snap).2.1]

/-- A loop tick on which recording is inactive exports nothing and leaves the
buffer (and the flag) untouched. -/
theorem tick_no_record {s : OrbitalLaunch} {snap : Snapshot} {s1 : OrbitalLaunch}
    (h : tick s snap = some s1) (hrec : s.telemetry.do_record = false) :
    s1.telemetry.do_record = false ∧
    s1.telemetry.sink = s.telemetry.sink ∧
    s1.telemetry.record = s.telemetry.record := by
  simp only [tick] at h
  split at h
  next => exact Option.noConfusion h
  next sA b heq =>
      have hAtel : sA.telemetry = s.telemetry.update snap := checkPhase_telemetry heq
      have hflag : sA.telemetry.do_record = false := by
        rw [hAtel, (update_fields s.telemetry snap).1]; exact hrec
      rw [if_neg (by rw [hflag]; simp)] at h
      obtain rfl := Option.some.inj h
      refine ⟨hflag, ?_, ?_⟩
      · rw [hAtel, (update_fields s.telemetry snap).2.1]
      · rw [hAtel, (update_fields s.telemetry snap).2.2.2.2, hrec]
        simp

/-- Once the recording flag is off, no later tick exports or touches the
buffer. -/
theorem runTicks_no_record {s : OrbitalLaunch} {snaps : List Snapshot}
    {s1 : OrbitalLaunch} (h : runTicks s snaps = some s1)
    (hrec : s.telemetry.do_record = false) :
    s1.telemetry.do_record = false ∧
    s1.telemetry.sink = s.telemetry.sink ∧
    s1.telemetry.record = s.telemetry.record := by
  induction snaps generalizing s with
  | nil => simp [runTicks] at h; subst h; exact ⟨hrec, rfl, rfl⟩
  | cons snap rest ih =>
      rw [runTicks] at h
      cases hc : tick s snap with
      | none => rw [hc] at h; exact Option.noConfusion h
      | some s2 =>
          rw [hc] at h
          obtain ⟨h1, h2, h3⟩ := tick_no_record hc hrec
          obtain ⟨g1, g2, g3⟩ := ih h h1
          exact ⟨g1, g2.trans h2, g3.trans h3⟩

/-- A loop tick on which recording is active but the fresh altitude does not
exceed 70000 performs no export: the flag stays on, the sink is untouched and
the buffer only gains that tick's sample. -/
theorem tick_below {s : OrbitalLaunch} {snap : Snapshot} {s1 : OrbitalLaunch}
    (h : tick s snap = some s1) (hrec : s.telemetry.do_record = true)
    (halt : snap.mean_altitude ≤ 70000) :
    s1.telemetry.do_record = true ∧
    s1.telemetry.sink = s.telemetry.sink ∧
    s1.telemetry.record = (s.telemetry.update snap).record := by
  simp only [tick] at h
  split at h
  next => exact Option.noConfusion h
  next sA b heq =>
      have hAtel : sA.telemetry = s.telemetry.update snap := checkPhase_telemetry heq
      have hnotgt : ¬ (s.telemetry.update snap).altitude > 70000 := by
        rw [(update_fields s.telemetry snap).2.2.2.1]
        exact not_lt.mpr halt
      rw [if_neg (fun hc => hnotgt hc.2)] at h
      obtain rfl := Option.some.inj h
      refine ⟨?_, ?_, ?_⟩
      · rw [hAtel, (update_fields s.telemetry snap).1]; exact hrec
      · rw [hAtel, (update_fields s.telemetry snap).2.1]
      · rw [hAtel]

/-- While recording is active and every altitude reading stays at or below
70000, a sequence of ticks never exports and never clears the flag. -/
theorem runTicks_below {s : OrbitalLaunch} {snaps : List Snapshot}
    {s1 : OrbitalLaunch} (h : runTicks s snaps = some s1)
    (hrec : s.telemetry.do_record = true)
    (halt : ∀ snap ∈ snaps, snap.mean_altitude ≤ 70000) :
    s1.telemetry.do_record = true ∧
    s1.telemetry.sink = s.telemetry.sink := by
  induction snaps generalizing s with
  | nil => simp [runTicks] at h; subst h; exact ⟨hrec, rfl⟩
  | cons snap rest ih =>
      rw [runTicks] at h
      cases hc : tick s snap with
      | none => rw [hc] at h; exact Option.noConfusion h
      | some s2 =>
          rw [hc] at h
          obtain ⟨h1, h2, h3⟩ :=
            tick_below hc hrec (halt snap (List.mem_cons_self snap rest))
          obtain ⟨g1, g2⟩ := ih h h1 fun x hx => halt x (List.mem_cons_of_mem snap hx)
          exact ⟨g1, g2.trans h2⟩

/-- Iterating `update` with the recording flag on appends one sample per
snapshot, in order, and does not touch the flag, the epoch or the sink. -/
theorem updateMany_fields (t : Telemetry) (snaps : List Snapshot)
    (h : t.do_record = true) :
    (updateMany t snaps).do_record = true ∧
    (updateMany t snaps).start_time = t.start_time ∧
    (updateMany t snaps).sink = t.sink ∧
    (updateMany t snaps).record = t.record ++ snaps.map (sampleRow t.start_time) := by
  induction snaps generalizing t with
  | nil => simp [updateMany, h]
  | cons s rest ih =>
      simp only [updateMany, List.foldl_cons] at ih ⊢
      have h1 : (t.update s).do_record = true := by
        rw [(update_fields t s).1]; exact h
      obtain ⟨ha, hb, hc, hd⟩ := ih (t.update s) h1
      refine ⟨ha, ?_, ?_, ?_⟩
      · rw [hb, (update_fields t s).2.2.1]
      · rw [hc, (update_fields t s).2.1]
      · rw [hd, (update_fields t s).2.2.2.2, (update_fields t s).2.2.1, h]
        simp

/-- The header row contributes nothing to the elapsed-time column. -/
theorem elapsedColumn_header (rows : List Row) :
    elapsedColumn (headerRow :: rows) = elapsedColumn rows := by
  simp [elapsedColumn, List.filterMap_cons, headerRow, rowElapsed]

/-- The elapsed-time column of a block of sample rows is the snapshot times
shifted by the epoch, in append order. -/
theorem elapsedColumn_samples (start : ℚ) (snaps : List Snapshot) :
    elapsedColumn (snaps.map (sampleRow start)) =
      snaps.map (fun s => s.ut - start) := by
  induction snaps with
  | nil => rfl
  | cons s rest ih =>
      simp only [List.map_cons, elapsedColumn, List.filterMap_cons] at ih ⊢
      rw [show rowElapsed (sampleRow start s) = some (s.ut - start) from rfl, ih]

/-! ## Claims -/

/-- Claim C1: for every phase in the transition table, when its listed
condition holds on the given telemetry values, one `_check_phase` call moves
the machine to exactly the next phase listed in the table (returning `True`),
never to a later phase. -/
theorem C1_exact_next_phase (s : OrbitalLaunch) (altitude apoapsis thrust now : ℚ) :
    (s.phase = .LAUNCHPAD →
      checkPhase s altitude apoapsis thrust now =
        some ({ s with phase := .INITIAL_CLIMB }, true)) ∧
    (s.phase = .INITIAL_CLIMB → altitude > 100 →
      checkPhase s altitude apoapsis thrust now =
        some ({ s with phase := .INITIAL_TURN }, true)) ∧
    (s.phase = .INITIAL_TURN → altitude > 500 →
      checkPhase s altitude apoapsis thrust now =
        some ({ s with phase := .GRAVITY_TURN }, true)) ∧
    (s.phase = .GRAVITY_TURN → thrust < 1 →
      checkPhase s altitude apoapsis thrust now =
        some ({ s with phase := .MECO, meco_timer_1 := some ⟨now, 1/2⟩ }, true)) ∧
    (∀ t : Timer, s.phase = .MECO → s.meco_timer_1 = some t → t.elapsed now = true →
      checkPhase s altitude apoapsis thrust now =
        some ({ s with phase := .MAIN_STAGE_SEPARATION,
                       meco_timer_2 := some ⟨now, 1/2⟩ }, true)) ∧
    (∀ t : Timer, s.phase = .MAIN_STAGE_SEPARATION → s.meco_timer_2 = some t →
      t.elapsed now = true →
      checkPhase s altitude apoapsis thrust now =
        some ({ s with phase := .SUBORBITAL_ACCELERATION }, true)) ∧
    (s.phase = .SUBORBITAL_ACCELERATION → apoapsis > 75000 →
      checkPhase s altitude apoapsis thrust now =
        some ({ s with phase := .SECO }, true)) ∧
    (s.phase = .SECO → altitude > 70000 →
      checkPhase s altitude apoapsis thrust now =
        some ({ s with phase := .IN_SPACE_TOWARDS_CIRCULARIZATION }, true)) := by
  refine ⟨fun h => ?_, fun h hc => ?_, fun h hc => ?_, fun h hc => ?_,
          fun t h h1 hc => ?_, fun t h h1 hc => ?_, fun h hc => ?_, fun h hc => ?_⟩ <;>
    simp [checkPhase, *]

/-- Claim C1 witness: the two example scenarios — `INITIAL_CLIMB` at altitude
`600` moves to `INITIAL_TURN` (not `GRAVITY_TURN`), and
`SUBORBITAL_ACCELERATION` at apoapsis `80000` moves to `SECO`. -/
theorem C1_exact_next_phase_witness :
    (({ OrbitalLaunch.init with phase := .INITIAL_CLIMB } : OrbitalLaunch).phase =
        .INITIAL_CLIMB ∧
      (600 : ℚ) > 100 ∧
      checkPhase { OrbitalLaunch.init with phase := .INITIAL_CLIMB } 600 0 10 0 =
        some ({ OrbitalLaunch.init with phase := .INITIAL_TURN }, true)) ∧
    (({ OrbitalLaunch.init with phase := .SUBORBITAL_ACCELERATION } : OrbitalLaunch).phase =
        .SUBORBITAL_ACCELERATION ∧
      (80000 : ℚ) > 75000 ∧
      checkPhase { OrbitalLaunch.init with phase := .SUBORBITAL_ACCELERATION } 0 80000 10 0 =
        some ({ OrbitalLaunch.init with phase := .SECO }, true)) :=
  ⟨⟨rfl, by norm_num,
    (C1_exact_next_phase { OrbitalLaunch.init with phase := .INITIAL_CLIMB }
        600 0 10 0).2.1 rfl (by norm_num)⟩,
   ⟨rfl, by norm_num,
    (C1_exact_next_phase { OrbitalLaunch.init with phase := .SUBORBITAL_ACCELERATION }
        0 80000 10 0).2.2.2.2.2.2.1 rfl (by norm_num)⟩⟩

/-- Claim C2: a single `_check_phase` call either leaves the phase unchanged or
sets it to the immediate canonical successor — the canonical index grows by at
most one per tick — and over any sequence of calls the index never decreases. -/
theorem C2_monotone_single_advance :
    (∀ (s : OrbitalLaunch) (altitude apoapsis thrust now : ℚ)
        (s1 : OrbitalLaunch) (b : Bool),
      checkPhase s altitude apoapsis thrust now = some (s1, b) →
      (s1.phase = s.phase ∨ s1.phase = canonicalNext s.phase) ∧
      canonIdx s.phase ≤ canonIdx s1.phase ∧
      canonIdx s1.phase ≤ canonIdx s.phase + 1) ∧
    (∀ (s : OrbitalLaunch) (inputs : List CheckInput) (s1 : OrbitalLaunch),
      runChecks s inputs = some s1 → canonIdx s.phase ≤ canonIdx s1.phase) := by
  constructor
  · intro s altitude apoapsis thrust now s1 b h
    refine ⟨checkPhase_phase_step h, ?_, ?_⟩ <;>
      rcases checkPhase_phase_step h with he | he <;> rw [he]
    · exact (canonIdx_next _).1
    · exact Nat.le_succ _
    · exact (canonIdx_next _).2
  · intro s inputs s1 h
    exact runChecks_canonIdx h

/-- Claim C2 witness: from `LAUNCHPAD`, one call advances exactly one phase
(index `0` to `1`), and a two-call sequence never decreases the index. -/
theorem C2_monotone_single_advance_witness :
    (checkPhase OrbitalLaunch.init 0 0 10 0 =
        some ({ OrbitalLaunch.init with phase := .INITIAL_CLIMB }, true) ∧
      (({ OrbitalLaunch.init with phase := .INITIAL_CLIMB } :
          OrbitalLaunch).phase = OrbitalLaunch.init.phase ∨
        ({ OrbitalLaunch.init with phase := .INITIAL_CLIMB } :
          OrbitalLaunch).phase = canonicalNext OrbitalLaunch.init.phase)) ∧
    (runChecks OrbitalLaunch.init [⟨0, 0, 10, 0⟩] =
        some { OrbitalLaunch.init with phase := .INITIAL_CLIMB } ∧
      canonIdx OrbitalLaunch.init.phase ≤
        canonIdx ({ OrbitalLaunch.init with phase := .INITIAL_CLIMB } :
          OrbitalLaunch).phase) :=
  ⟨⟨rfl, ((C2_monotone_single_advance.1 OrbitalLaunch.init 0 0 10 0
      { OrbitalLaunch.init with phase := .INITIAL_CLIMB } true) rfl).1⟩,
   ⟨rfl, C2_monotone_single_advance.2 OrbitalLaunch.init [⟨0, 0, 10, 0⟩]
      { OrbitalLaunch.init with phase := .INITIAL_CLIMB } rfl⟩⟩

/-- Claim C3, counterexample: the claim states that a query made at exactly
`start_instant + duration` returns `true`, but `Timer.elapsed` compares with a
strict inequality, so a timer started at `0` with duration `1`, queried at
exactly `0 + 1`, reports `false`. -/
theorem C3_counterexample :
    Timer.elapsed { start_time := 0, duration := 1 } (0 + 1) = false := by
  simp [Timer.elapsed]

/-- Claim C3 (amended): for every Timer constructed with duration `d`,
`elapsed()` returns `false` for every query made at or before
`start_instant + d` and `true` for every query made strictly after; it is a
pure function of the timer and the query time, so querying never mutates the
timer and the answer is independent of how many queries were made before. -/
theorem C3_timer_elapsed (t : Timer) (now : ℚ) :
    (now ≤ t.start_time + t.duration → t.elapsed now = false) ∧
    (t.start_time + t.duration < now → t.elapsed now = true) := by
  refine ⟨fun h => ?_, fun h => ?_⟩
  · rw [Timer.elapsed, if_neg (not_lt.mpr h)]
  · rw [Timer.elapsed, if_pos h]

/-- Claim C3 witness: the amended theorem evaluated on a timer of duration `1`
started at `0`, queried at `1/2` (not yet elapsed) and at `2` (elapsed). -/
theorem C3_timer_elapsed_witness :
    ((1 : ℚ) / 2 ≤ 0 + 1 ∧ Timer.elapsed { start_time := 0, duration := 1 } (1/2) = false) ∧
    ((0 : ℚ) + 1 < 2 ∧ Timer.elapsed { start_time := 0, duration := 1 } 2 = true) :=
  ⟨⟨by norm_num, (C3_timer_elapsed ⟨0, 1⟩ (1/2)).1 (by norm_num)⟩,
   ⟨by norm_num, (C3_timer_elapsed ⟨0, 1⟩ 2).2 (by norm_num)⟩⟩

/-- Claim C4, counterexample: with recording active, calling `stop_recording`
twice performs two export calls (the sink receives two row sequences), not
exactly one as claimed — `stop_recording` exports unconditionally. -/
theorem C4_counterexample :
    (({ Telemetry.init with do_record := true } :
        Telemetry).stop_recording.stop_recording).sink.length = 2 := rfl

/-- Claim C4 (amended): calling `stop_recording` twice exports the buffer
twice — once per call, both times with the contents as of the first call,
since the buffer is never reset — while the second call is indeed a no-op on
the recording flag (already `false`). -/
theorem C4_stop_recording_twice (t : Telemetry) :
    (t.stop_recording.stop_recording).sink = t.sink ++ [t.record, t.record] ∧
    t.stop_recording.do_record = false ∧
    t.stop_recording.stop_recording.do_record = false ∧
    t.stop_recording.record = t.record := by
  refine ⟨?_, rfl, rfl, rfl⟩
  simp [Telemetry.stop_recording]

/-- Claim C6: every `update` call refreshes the stored altitude and apoapsis
from the snapshot regardless of the recording flag; when the flag is `true` it
also recomputes `elapsed` and appends exactly one sample row whose fields are,
in order: mission-elapsed time, mean altitude, drag magnitude, true air speed,
Mach number, atmospheric density, dynamic pressure, static air temperature;
when the flag is `false`, `elapsed` and the buffer are unchanged. -/
theorem C6_update (t : Telemetry) (s : Snapshot) :
    (t.update s).altitude = s.mean_altitude ∧
    (t.update s).apoapsis = s.apoapsis_altitude ∧
    (t.do_record = true →
      (t.update s).elapsed = s.ut - t.start_time ∧
      (t.update s).record = t.record ++
        [[.inr (s.ut - t.start_time), .inr s.mean_altitude, .inr s.drag,
          .inr s.true_air_speed, .inr s.mach, .inr s.atmosphere_density,
          .inr s.dynamic_pressure, .inr s.static_air_temperature]]) ∧
    (t.do_record = false →
      (t.update s).elapsed = t.elapsed ∧ (t.update s).record = t.record) := by
  cases h : t.do_record <;> simp [Telemetry.update, sampleRow, h]

/-- Claim C6 witness: `update` on a recording telemetry at a concrete snapshot
appends exactly the eight-field row, and on the non-recording initial
telemetry leaves the buffer unchanged. -/
theorem C6_update_witness :
    (({ Telemetry.init with do_record := true } : Telemetry).do_record = true ∧
      (({ Telemetry.init with do_record := true } : Telemetry).update
          ⟨1, 2, 3, 4, 5, 6, 7, 8, 9, 10, 11⟩).record =
        [headerRow] ++
          [[.inr (1 - 0), .inr 2, .inr 4, .inr 5, .inr 6, .inr 7, .inr 8, .inr 9]]) ∧
    (Telemetry.init.do_record = false ∧
      (Telemetry.init.update ⟨1, 2, 3, 4, 5, 6, 7, 8, 9, 10, 11⟩).record = [headerRow]) :=
  ⟨⟨rfl, ((C6_update { Telemetry.init with do_record := true }
      ⟨1, 2, 3, 4, 5, 6, 7, 8, 9, 10, 11⟩).2.2.1 rfl).2⟩,
   ⟨rfl, ((C6_update Telemetry.init
      ⟨1, 2, 3, 4, 5, 6, 7, 8, 9, 10, 11⟩).2.2.2 rfl).2⟩⟩

/-- Claim C8: when an iteration's own wall-clock cost `c` is below the 100 ms
target period, the loop sleeps exactly `0.1 - c` seconds; when `c` is at or
above the period it does not sleep at all — `sleepDuration` is a total
function, so no error is raised in either case. -/
theorem C8_run_loop_sleep (c : ℚ) :
    (c < 1/10 → sleepDuration c = some (1/10 - c)) ∧
    (1/10 ≤ c → sleepDuration c = none) := by
  refine ⟨fun h => ?_, fun h => ?_⟩
  · rw [sleepDuration, if_pos (by linarith)]
  · rw [sleepDuration, if_neg (by linarith)]

/-- Claim C8 witness: an iteration costing 50 ms sleeps the remaining 50 ms;
an iteration costing 200 ms does not sleep. -/
theorem C8_run_loop_sleep_witness :
    ((1 : ℚ) / 20 < 1/10 ∧ sleepDuration (1/20) = some (1/10 - 1/20)) ∧
    ((1 : ℚ) / 10 ≤ 1/5 ∧ sleepDuration (1/5) = none) :=
  ⟨⟨by norm_num, (C8_run_loop_sleep (1/20)).1 (by norm_num)⟩,
   ⟨by norm_num, (C8_run_loop_sleep (1/5)).2 (by norm_num)⟩⟩

/-- Claim C9: in every controller state reachable from the initial state by
`_check_phase` calls, when the phase is `MECO` the first timer is present and
when it is `MAIN_STAGE_SEPARATION` the second is present, so the `elapsed()`
dereferences in those branches never hit an absent timer — `_check_phase`
always returns a value on reachable states. -/
theorem C9_timers_present {s : OrbitalLaunch} (h : Reachable s) :
    (s.phase = .MECO → s.meco_timer_1.isSome = true) ∧
    (s.phase = .MAIN_STAGE_SEPARATION → s.meco_timer_2.isSome = true) ∧
    (∀ altitude apoapsis thrust now : ℚ,
      (checkPhase s altitude apoapsis thrust now).isSome = true) := by
  obtain ⟨-, hinv⟩ := reachable_inv h
  exact ⟨fun hp => hinv.1 (Or.inl hp), fun hp => hinv.2 (Or.inl hp),
         fun altitude apoapsis thrust now =>
           checkPhase_total hinv altitude apoapsis thrust now⟩

/-- Claim C9 witness: the theorem applied at the (reachable) initial state —
`_check_phase` returns a value there. -/
theorem C9_timers_present_witness :
    (checkPhase OrbitalLaunch.init 0 0 10 0).isSome = true :=
  (C9_timers_present Reachable.init).2.2 0 0 10 0

/-- Claim C10: `FlightPhase` has twelve members, but every reachable state's
phase lies in the canonical nine (in particular it is never
`SECOND_ENGINE_START`, `CIRCULARIZATION` or `ORBIT`), each of the nine is
reached by some call sequence, and `IN_SPACE_TOWARDS_CIRCULARIZATION` is
terminal: `_check_phase` leaves it unchanged, returning `False`. -/
theorem C10_reachable_phase_set {s : OrbitalLaunch} (h : Reachable s) :
    (Finset.univ : Finset FlightPhase).card = 12 ∧
    s.phase ∈ canonicalPhases ∧
    (s.phase ≠ .SECOND_ENGINE_START ∧ s.phase ≠ .CIRCULARIZATION ∧
      s.phase ≠ .ORBIT) ∧
    (∀ p ∈ canonicalPhases, ∃ s1 : OrbitalLaunch, Reachable s1 ∧ s1.phase = p) ∧
    (s.phase = .IN_SPACE_TOWARDS_CIRCULARIZATION →
      ∀ altitude apoapsis thrust now : ℚ,
        checkPhase s altitude apoapsis thrust now = some (s, false)) := by
  have hmem := (reachable_inv h).1
  refine ⟨by decide, hmem, ?_, canonical_reachable,
          fun hp altitude apoapsis thrust now => checkPhase_terminal hp _ _ _ _⟩
  exact (by decide :
      ∀ q, q ∈ canonicalPhases → q ≠ FlightPhase.SECOND_ENGINE_START ∧
        q ≠ FlightPhase.CIRCULARIZATION ∧ q ≠ FlightPhase.ORBIT)
    s.phase hmem

/-- Claim C10 witness: the theorem applied at the initial state — its phase is
canonical. -/
theorem C10_reachable_phase_set_witness :
    OrbitalLaunch.init.phase ∈ canonicalPhases :=
  (C10_reachable_phase_set Reachable.init).2.1

/-- Claim C5: the control loop calls `stop_recording` exactly on a tick where
recording is active and the fresh altitude exceeds 70000 m, whatever the
current flight phase: that tick performs exactly one export (of the
post-update buffer) and clears the flag; on any tick — and any sequence of
ticks — with the flag off, no export happens and the buffer is not reset; and
on any tick — and any sequence of ticks — with recording active but altitude
at or below 70000, no export happens and the flag stays on, so the export of a
run happens exactly on the first above-threshold tick and never before. -/
theorem C5_stop_recording_trigger :
    (∀ (s : OrbitalLaunch) (snap : Snapshot) (s1 : OrbitalLaunch),
      tick s snap = some s1 → s.telemetry.do_record = true →
      snap.mean_altitude > 70000 →
      s1.telemetry.do_record = false ∧
      s1.telemetry.sink = s.telemetry.sink ++ [(s.telemetry.update snap).record]) ∧
    (∀ (s : OrbitalLaunch) (snap : Snapshot) (s1 : OrbitalLaunch),
      tick s snap = some s1 → s.telemetry.do_record = false →
      s1.telemetry.do_record = false ∧
      s1.telemetry.sink = s.telemetry.sink ∧
      s1.telemetry.record = s.telemetry.record) ∧
    (∀ (s : OrbitalLaunch) (snaps : List Snapshot) (s1 : OrbitalLaunch),
      runTicks s snaps = some s1 → s.telemetry.do_record = false →
      s1.telemetry.do_record = false ∧
      s1.telemetry.sink = s.telemetry.sink ∧
      s1.telemetry.record = s.telemetry.record) ∧
    (∀ (s : OrbitalLaunch) (snap : Snapshot) (s1 : OrbitalLaunch),
      tick s snap = some s1 → s.telemetry.do_record = true →
      snap.mean_altitude ≤ 70000 →
      s1.telemetry.do_record = true ∧
      s1.telemetry.sink = s.telemetry.sink ∧
      s1.telemetry.record = (s.telemetry.update snap).record) ∧
    (∀ (s : OrbitalLaunch) (snaps : List Snapshot) (s1 : OrbitalLaunch),
      runTicks s snaps = some s1 → s.telemetry.do_record = true →
      (∀ snap ∈ snaps, snap.mean_altitude ≤ 70000) →
      s1.telemetry.do_record = true ∧
      s1.telemetry.sink = s.telemetry.sink) :=
  ⟨fun _ _ _ h hrec halt => tick_stop h hrec halt,
   fun _ _ _ h hrec => tick_no_record h hrec,
   fun _ _ _ h hrec => runTicks_no_record h hrec,
   fun _ _ _ h hrec halt => tick_below h hrec halt,
   fun _ _ _ h hrec halt => runTicks_below h hrec halt⟩

/-- Claim C5 witness: a concrete tick with recording active and altitude
70001 (phase still `LAUNCHPAD`) exports once and clears the flag. -/
theorem C5_stop_recording_trigger_witness :
    tick { OrbitalLaunch.init with telemetry := { Telemetry.init with do_record := true } }
        ⟨1, 70001, 3, 4, 5, 6, 7, 8, 9, 10, 11⟩ =
      some { telemetry := { do_record := false,
                            record := [headerRow,
                              [.inr 1, .inr 70001, .inr 4, .inr 5, .inr 6, .inr 7, .inr 8, .inr 9]],
                            altitude := 70001, apoapsis := 3, start_time := 0, elapsed := 1,
                            sink := [[headerRow,
                              [.inr 1, .inr 70001, .inr 4, .inr 5, .inr 6, .inr 7, .inr 8, .inr 9]]] },
             phase := .INITIAL_CLIMB, meco_timer_1 := none, meco_timer_2 := none } ∧
    ({ OrbitalLaunch.init with
        telemetry := { Telemetry.init with do_record := true } } :
      OrbitalLaunch).telemetry.do_record = true ∧
    (Snapshot.mean_altitude ⟨1, 70001, 3, 4, 5, 6, 7, 8, 9, 10, 11⟩ > 70000) ∧
    ({ telemetry := { do_record := false,
                      record := [headerRow,
                        [.inr 1, .inr 70001, .inr 4, .inr 5, .inr 6, .inr 7, .inr 8, .inr 9]],
                      altitude := 70001, apoapsis := 3, start_time := 0, elapsed := 1,
                      sink := [[headerRow,
                        [.inr 1, .inr 70001, .inr 4, .inr 5, .inr 6, .inr 7, .inr 8, .inr 9]]] },
       phase := .INITIAL_CLIMB, meco_timer_1 := none, meco_timer_2 := none } :
      OrbitalLaunch).telemetry.do_record = false := by
  have htick : tick { OrbitalLaunch.init with
        telemetry := { Telemetry.init with do_record := true } }
        ⟨1, 70001, 3, 4, 5, 6, 7, 8, 9, 10, 11⟩ =
      some { telemetry := { do_record := false,
                            record := [headerRow,
                              [.inr 1, .inr 70001, .inr 4, .inr 5, .inr 6, .inr 7, .inr 8, .inr 9]],
                            altitude := 70001, apoapsis := 3, start_time := 0, elapsed := 1,
                            sink := [[headerRow,
                              [.inr 1, .inr 70001, .inr 4, .inr 5, .inr 6, .inr 7, .inr 8, .inr 9]]] },
             phase := .INITIAL_CLIMB, meco_timer_1 := none, meco_timer_2 := none } := by
    norm_num [tick, checkPhase, Telemetry.update, Telemetry.stop_recording, sampleRow,
      Telemetry.init, OrbitalLaunch.init]
  refine ⟨htick, rfl, by norm_num, ?_⟩
  exact (C5_stop_recording_trigger.1 _ _ _ htick rfl
    (by show (70001 : ℚ) > 70000; norm_num)).1

/-- Claim C7: from an initialized recording telemetry (buffer holding only the
header, epoch fixed), a sequence of updates appends one sample row per
snapshot in order after the header; the elapsed-time column is the stream
times shifted by the epoch, in append order, monotone (non-strictly or
strictly) whenever the mission-time readings are; and `stop_recording`
exports exactly those rows, header row first, in append order. -/
theorem C7_sample_ordering (t0 : Telemetry) (snaps : List Snapshot)
    (hrec : t0.do_record = true) (hbuf : t0.record = [headerRow]) :
    (updateMany t0 snaps).record = headerRow :: snaps.map (sampleRow t0.start_time) ∧
    elapsedColumn (updateMany t0 snaps).record =
      snaps.map (fun s => s.ut - t0.start_time) ∧
    (List.Chain' (· ≤ ·) (snaps.map Snapshot.ut) →
      List.Chain' (· ≤ ·) (elapsedColumn (updateMany t0 snaps).record)) ∧
    (List.Chain' (· < ·) (snaps.map Snapshot.ut) →
      List.Chain' (· < ·) (elapsedColumn (updateMany t0 snaps).record)) ∧
    (updateMany t0 snaps).stop_recording.sink =
      t0.sink ++ [headerRow :: snaps.map (sampleRow t0.start_time)] := by
  obtain ⟨h1, h2, h3, h4⟩ := updateMany_fields t0 snaps hrec
  have hrecEq : (updateMany t0 snaps).record =
      headerRow :: snaps.map (sampleRow t0.start_time) := by
    rw [h4, hbuf]; rfl
  have hcol : elapsedColumn (updateMany t0 snaps).record =
      snaps.map (fun s => s.ut - t0.start_time) := by
    rw [hrecEq, elapsedColumn_header, elapsedColumn_samples]
  refine ⟨hrecEq, hcol, ?_, ?_, ?_⟩
  · intro hc
    rw [hcol]
    rw [List.chain'_map] at hc ⊢
    exact hc.imp fun a b hab => sub_le_sub_right hab _
  · intro hc
    rw [hcol]
    rw [List.chain'_map] at hc ⊢
    exact hc.imp fun a b hab => sub_lt_sub_right hab _
  · simp only [Telemetry.stop_recording, h3, hrecEq]

/-- Claim C7 witness: two snapshots with mission times 1 and 2 produce a
non-decreasing elapsed-time column. -/
theorem C7_sample_ordering_witness :
    ({ Telemetry.init with do_record := true } : Telemetry).do_record = true ∧
    ({ Telemetry.init with do_record := true } : Telemetry).record = [headerRow] ∧
    List.Chain' (· ≤ ·)
      (([⟨1, 2, 3, 4, 5, 6, 7, 8, 9, 10, 11⟩,
         ⟨2, 3, 4, 5, 6, 7, 8, 9, 10, 11, 12⟩] : List Snapshot).map Snapshot.ut) ∧
    List.Chain' (· ≤ ·)
      (elapsedColumn (updateMany { Telemetry.init with do_record := true }
        [⟨1, 2, 3, 4, 5, 6, 7, 8, 9, 10, 11⟩,
         ⟨2, 3, 4, 5, 6, 7, 8, 9, 10, 11, 12⟩]).record) := by
  have hchain : List.Chain' (· ≤ ·)
      (([⟨1, 2, 3, 4, 5, 6, 7, 8, 9, 10, 11⟩,
         ⟨2, 3, 4, 5, 6, 7, 8, 9, 10, 11, 12⟩] : List Snapshot).map Snapshot.ut) := by
    norm_num [List.chain'_cons]
  exact ⟨rfl, rfl, hchain,
    (C7_sample_ordering { Telemetry.init with do_record := true }
      [⟨1, 2, 3, 4, 5, 6, 7, 8, 9, 10, 11⟩,
       ⟨2, 3, 4, 5, 6, 7, 8, 9, 10, 11, 12⟩] rfl rfl).2.2.1 hchain⟩

end KerbalScripts
